import Mathlib

/-!
Shallow embedding of the chat widget client in
`src/chatbot-backend/static/i18n_widget.js`: the bilingual language
detector, the client session store, the 429-retrying transport and the
single-in-flight submission controller.  JavaScript strings are modelled
as `String`, nullable values as `Option`, thrown exceptions as `Except`,
the DOM message log as a list, and `localStorage` plus `JSON` as an
explicit stored-value type.
-/

namespace ChatWidget

/-- JS truthiness of a nullable string: `null` and `""` are falsy.
Returns the value when truthy, `none` otherwise. -/
def jsTruthy (o : Option String) : Option String :=
  match o with
  | some s => if s = "" then none else some s
  | none => none

/-- The JS expression `a || b` for a nullable string `a` and default `b`. -/
def jsOrStr (a : Option String) (b : String) : String :=
  match jsTruthy a with
  | some s => s
  | none => b

/-! ## Language detector (i18n_widget.js lines 3-12) -/

/-- Membership in the character class of `AR_RE`:
`[؀-ۿݐ-ݿࢠ-ࣿﭐ-﷿ﹰ-﻿]`. -/
def isArabicChar (c : Char) : Bool :=
  (0x0600 ≤ c.toNat && c.toNat ≤ 0x06FF) ||
  (0x0750 ≤ c.toNat && c.toNat ≤ 0x077F) ||
  (0x08A0 ≤ c.toNat && c.toNat ≤ 0x08FF) ||
  (0xFB50 ≤ c.toNat && c.toNat ≤ 0xFDFF) ||
  (0xFE70 ≤ c.toNat && c.toNat ≤ 0xFEFF)

/-- Membership in the character class `[A-Za-z]`. -/
def isLatinChar (c : Char) : Bool :=
  (0x41 ≤ c.toNat && c.toNat ≤ 0x5A) || (0x61 ≤ c.toNat && c.toNat ≤ 0x7A)

/-- `(text.match(AR_RE) || []).length` where `AR_RE` carries NO global
flag: a non-global `String.match` returns the single match-result array
(length 1) when some character matches, and `null` (so length 0)
otherwise.  The count is therefore at most 1. -/
def arMatchCount (text : String) : Nat :=
  if text.data.any isArabicChar then 1 else 0

/-- `(text.match(/[A-Za-z]/g) || []).length`: with the global flag the
result is the array of all matches, one per Latin letter. -/
def latinMatchCount (text : String) : Nat :=
  (text.data.filter isLatinChar).length

/-- The number of characters of `text` inside the Arabic ranges of
`AR_RE`; this is what a global version of `AR_RE` would count. -/
def arabicCharCount (text : String) : Nat :=
  (text.data.filter isArabicChar).length

/-- `detectClientLangFromInput` (lines 5-12): `null` on empty or
whitespace-only input, then the Arabic check, then the Latin check. -/
def detectClientLangFromInput (text : String) : Option String :=
  if text = "" ∨ text.data.all (fun c => c.isWhitespace) then none
  else
    let arMatches := arMatchCount text
    let latinMatches := latinMatchCount text
    if arMatches ≥ 2 ∧ arMatches ≥ latinMatches then some "ar"
    else if latinMatches ≥ 2 ∧ latinMatches ≥ arMatches then some "en"
    else none

/-- The detector as §4.1 of the spec describes it, for comparison with
the implementation: `arabicCount` counts every character in the Arabic
script ranges (the implementation's `arMatchCount` caps at 1 because
`AR_RE` is non-global). -/
def detectSpecModel (text : String) : Option String :=
  if text = "" ∨ text.data.all (fun c => c.isWhitespace) then none
  else
    let arabicCount := arabicCharCount text
    let latinCount := latinMatchCount text
    if arabicCount ≥ 2 ∧ arabicCount ≥ latinCount then some "ar"
    else if latinCount ≥ 2 ∧ latinCount ≥ arabicCount then some "en"
    else none

/-! ## Session store (widget.js lines 46-69) -/

/-- The persisted `Session` record `{ session_id, created_at }`. -/
structure Session where
  session_id : String
  created_at : String
deriving Repr, DecidableEq

/-- The value held by `localStorage` under `STORAGE_KEY`, abstracting the
serialized string: `missing` is `null` or the (falsy) empty string,
`corrupt` a truthy string on which `JSON.parse` throws, `valid s` the
`JSON.stringify` image of `s` (which `JSON.parse` inverts). -/
inductive StorageVal where
  | missing : StorageVal
  | corrupt : StorageVal
  | valid : Session → StorageVal
deriving Repr, DecidableEq

/-- `getSession` (lines 62-69).  `freshId` stands for the `genSessionId()`
draw and `now` for `new Date().toISOString()`.  Returns the storage after
the call and the result of the final `JSON.parse(s)`, which throws
(`Except.error`) on a corrupt stored string: the code only synthesizes a
fresh session when the stored value is falsy. -/
def getSession (store : StorageVal) (freshId now : String) :
    StorageVal × Except Unit Session :=
  match store with
  | StorageVal.missing =>
      let s : Session := ⟨freshId, now⟩
      (StorageVal.valid s, Except.ok s)
  | StorageVal.corrupt => (StorageVal.corrupt, Except.error ())
  | StorageVal.valid s => (StorageVal.valid s, Except.ok s)

/-! ## Transport (widget.js lines 46-131) -/

/-- `API_CHAT` (line 46). -/
def API_CHAT : String := "/api/chat"

/-- `MAX_RETRIES` (line 48). -/
def MAX_RETRIES : Nat := 4

/-- `getToken` (lines 51-56): the meta tag content wins when truthy, then
the global variable when truthy, else `null`. -/
def getToken (metaContent globalToken : Option String) : Option String :=
  match jsTruthy metaContent with
  | some c => some c
  | none => jsTruthy globalToken

/-- A transport-level failure: `fetch` itself throws (network error). -/
inductive NetErr where
  | netFail : NetErr
deriving Repr, DecidableEq

/-- The fields of the parsed JSON response body consumed by the widget. -/
structure RespData where
  reply : Option String
  session_id : Option String
  error : Option String
deriving Repr, DecidableEq

/-- An HTTP response as the widget observes it: status code, status text,
the `Retry-After` header when present (already parsed as whole seconds,
per the rate-limiting contract), and the body, `none` when `resp.json()`
throws. -/
structure ServerResponse where
  status : Nat
  statusText : String
  retryAfter : Option Nat
  body : Option RespData
deriving Repr, DecidableEq

/-- `resp.ok` of the Fetch API: status in the range 200-299. -/
def ServerResponse.ok (r : ServerResponse) : Bool :=
  200 ≤ r.status && r.status ≤ 299

/-- `try { data = await resp.json() } catch (e) { data = {} }`
(line 170): a body that fails to parse degrades to the empty object. -/
def respData (resp : ServerResponse) : RespData :=
  match resp.body with
  | some d => d
  | none => ⟨none, none, none⟩

/-- The request headers the widget manipulates. -/
structure Headers where
  contentType : Option String := none
  xClientSession : Option String := none
  authorization : Option String := none
deriving Repr, DecidableEq

/-- Lines 118-121 of `fetchWithRetry`: set `X-Client-Session` to the
session id and, when a token is available and no `Authorization` header
is set, add the bearer header. -/
def attachHeaders (sessionId : String) (token : Option String)
    (h : Headers) : Headers :=
  match jsTruthy token, jsTruthy h.authorization with
  | some t, none =>
      { h with
        xClientSession := some sessionId
        authorization := some ("Bearer " ++ t) }
  | _, _ => { h with xClientSession := some sessionId }

/-- The observable outcome of one `fetchWithRetry` call: the value it
returns or the exception it propagates, the backoff waits performed (in
milliseconds, in order), and the total number of `fetch` calls made. -/
structure FetchTrace where
  result : Except NetErr ServerResponse
  waits : List Nat
  attempts : Nat
deriving Repr

/-- `fetchWithRetry` (lines 117-131).  `oracle n` is the outcome of the
`fetch` performed on attempt `n` (0-indexed): a response, or a thrown
transport error.  On a 429 with attempts left it waits `Retry-After`
seconds when the header is present, else `2^attempt * 500` ms, and
recurses; every other response is returned as-is, and a thrown `fetch`
error propagates immediately. -/
def fetchWithRetry (oracle : Nat → Except NetErr ServerResponse)
    (attempt : Nat) : FetchTrace :=
  match oracle attempt with
  | Except.error e => ⟨Except.error e, [], 1⟩
  | Except.ok resp =>
      if h : resp.status = 429 ∧ attempt < MAX_RETRIES then
        let waitMs := match resp.retryAfter with
          | some ra => ra * 1000
          | none => 2 ^ attempt * 500
        let rest := fetchWithRetry oracle (attempt + 1)
        ⟨rest.result, waitMs :: rest.waits, rest.attempts + 1⟩
      else
        ⟨Except.ok resp, [], 1⟩
termination_by MAX_RETRIES + 1 - attempt
decreasing_by
  have := h.2
  omega

/-! ## Submission controller (widget.js lines 134-190) -/

/-- A file attachment: only its name is observed by the widget. -/
structure FileBlob where
  name : String
  content : String
deriving Repr, DecidableEq

/-- The outbound body: the multipart `FormData` of lines 150-155 or the
JSON object of lines 160-165. -/
inductive ReqBody where
  | multipart : FileBlob → String → String → String → Option String → ReqBody
  | json : String → String → String → Option String → ReqBody
deriving Repr, DecidableEq

/-- One outbound HTTP request as handed to `fetch`. -/
structure ChatRequest where
  url : String
  method : String
  headers : Headers
  body : ReqBody
deriving Repr, DecidableEq

/-- One rendered chat bubble (`appendMessage`): sender and text. -/
structure ChatMsg where
  sender : String
  text : String
deriving Repr, DecidableEq

/-- The widget's mutable state touched by `sendMessageToServer`: the
`inFlight` flag, the in-memory `session`, the `localStorage` record, and
the DOM message log. -/
structure WidgetState where
  inFlight : Bool
  session : Session
  storage : StorageVal
  messages : List ChatMsg
deriving Repr, DecidableEq

/-- `sendMessageToServer` (lines 134-190).  Inputs beyond the source's
three parameters model its environment: `oracle` the network (per-attempt
`fetch` outcome), `langValue` the `langSelect.value` read, `metaContent`
and `globalToken` the two token sources of `getToken`.  Returns the state
after the call together with the list of HTTP requests issued (one per
`fetch` attempt; every attempt re-attaches the same headers because the
session does not change during the call). -/
def sendMessageToServer (oracle : Nat → Except NetErr ServerResponse)
    (langValue : String) (metaContent globalToken : Option String)
    (st : WidgetState) (messageText : String) (file : Option FileBlob)
    (intent : Option String) : WidgetState × List ChatRequest :=
  if st.inFlight = true then
    ({ st with messages :=
        st.messages ++ [⟨"bot", "Please wait — processing previous message."⟩] }, [])
  else if messageText = "" ∧ file = none then
    (st, [])
  else
    let echoText := if messageText = "" then
        (match file with
         | some f => f.name
         | none => "")
      else messageText
    let st1 : WidgetState :=
      { st with
        inFlight := true
        messages := st.messages ++ [⟨"user", echoText⟩] }
    let token := getToken metaContent globalToken
    let language := if langValue = "" then "en" else langValue
    let headers0 : Headers := match file with
      | some _ => {}
      | none => { contentType := some "application/json" }
    let body : ReqBody := match file with
      | some f =>
          ReqBody.multipart f st.session.session_id messageText language
            (jsTruthy intent)
      | none =>
          ReqBody.json st.session.session_id messageText language
            (jsTruthy intent)
    let req : ChatRequest :=
      ⟨API_CHAT, "POST", attachHeaders st.session.session_id token headers0, body⟩
    let tr := fetchWithRetry oracle 0
    let calls := List.replicate tr.attempts req
    match tr.result with
    | Except.error _ =>
        ({ st1 with
           inFlight := false
           messages := st1.messages ++
             [⟨"bot", "Network error — please try again."⟩] }, calls)
    | Except.ok resp =>
        let data := respData resp
        if resp.ok then
          let reply := jsOrStr data.reply "No reply from server"
          let upd : Session × StorageVal :=
            match jsTruthy data.session_id with
            | some sid =>
                if sid = st1.session.session_id then
                  (st1.session, st1.storage)
                else
                  let s2 : Session := { st1.session with session_id := sid }
                  (s2, StorageVal.valid s2)
            | none => (st1.session, st1.storage)
          ({ st1 with
             inFlight := false
             session := upd.1
             storage := upd.2
             messages := st1.messages ++ [⟨"bot", reply⟩] }, calls)
        else
          let errText := jsOrStr data.error
            (jsOrStr (some resp.statusText) ("HTTP " ++ toString resp.status))
          ({ st1 with
             inFlight := false
             messages := st1.messages ++ [⟨"bot", "Error: " ++ errText⟩] }, calls)

/-! ## Concrete fixtures for evaluating the model -/

/-- A 429 response with no Retry-After header. -/
def resp429 : ServerResponse := ⟨429, "Too Many Requests", none, none⟩

/-- A network that rate-limits every attempt, with no Retry-After. -/
def oracle429 : Nat → Except NetErr ServerResponse :=
  fun _ => Except.ok resp429

/-- A 429 response advertising Retry-After 2 seconds. -/
def resp429ra2 : ServerResponse := ⟨429, "Too Many Requests", some 2, none⟩

/-- A network that rate-limits every attempt with Retry-After 2. -/
def oracleRA2 : Nat → Except NetErr ServerResponse :=
  fun _ => Except.ok resp429ra2

/-- A 200 response whose body carries a reply and a canonical session id
different from the sample session. -/
def respOk : ServerResponse :=
  ⟨200, "OK", none, some ⟨some "hello", some "srv-123", none⟩⟩

/-- A network answering every attempt with `respOk`. -/
def oracleOk : Nat → Except NetErr ServerResponse :=
  fun _ => Except.ok respOk

/-- A 500 response with empty status text and an unparseable body. -/
def respBad : ServerResponse := ⟨500, "", none, none⟩

/-- A network answering every attempt with `respBad`. -/
def oracleBad : Nat → Except NetErr ServerResponse :=
  fun _ => Except.ok respBad

/-- A network whose every `fetch` throws. -/
def oracleNetFail : Nat → Except NetErr ServerResponse :=
  fun _ => Except.error NetErr.netFail

/-- A sample persisted session. -/
def sampleSession : Session := ⟨"sess-abc123", "2026-01-01T00:00:00Z"⟩

/-- The session after adopting the server id of `respOk`. -/
def adoptedSession : Session := ⟨"srv-123", "2026-01-01T00:00:00Z"⟩

/-- Widget state with no submission in flight. -/
def idleState : WidgetState :=
  ⟨false, sampleSession, StorageVal.valid sampleSession, []⟩

/-- Widget state with a submission in flight. -/
def busyState : WidgetState :=
  ⟨true, sampleSession, StorageVal.valid sampleSession, []⟩

/-- Widget state after the adoption performed on `respOk`. -/
def adoptedState : WidgetState :=
  ⟨false, adoptedSession, StorageVal.valid adoptedSession, []⟩

/-- A sample file attachment. -/
def sampleFile : FileBlob := ⟨"photo.png", "bytes"⟩

/-- The JSON-encoded request produced for `idleState` and message hi. -/
def jsonReq : ChatRequest :=
  ⟨API_CHAT, "POST", ⟨some "application/json", some "sess-abc123", none⟩,
   ReqBody.json "sess-abc123" "hi" "en" none⟩

/-- The multipart request produced for `idleState`, `sampleFile`, locale
ar, intent complaint, and an available token. -/
def multiReq : ChatRequest :=
  ⟨API_CHAT, "POST", ⟨none, some "sess-abc123", some "Bearer tok123"⟩,
   ReqBody.multipart sampleFile "sess-abc123" "" "ar" (some "complaint")⟩

/-- The JSON-encoded request produced for `adoptedState` and message
hello: it carries the adopted id in its session header. -/
def jsonAdoptedReq : ChatRequest :=
  ⟨API_CHAT, "POST", ⟨some "application/json", some "srv-123", none⟩,
   ReqBody.json "srv-123" "hello" "en" none⟩

end ChatWidget

namespace ChatWidget

/-! ## Helper lemmas -/

theorem jsTruthy_idem (o : Option String) : jsTruthy (jsTruthy o) = jsTruthy o := by
  cases o with
  | none => rfl
  | some s =>
      by_cases h : s = "" <;> simp [jsTruthy, h]

theorem jsTruthy_of_ne_empty (o : Option String) (h : o ≠ some "") :
    jsTruthy o = o := by
  cases o with
  | none => rfl
  | some s =>
      have hs : s ≠ "" := fun he => h (by rw [he])
      simp [jsTruthy, hs]

theorem jsTruthy_getToken (m g : Option String) :
    jsTruthy (getToken m g) = getToken m g := by
  cases hm : jsTruthy m with
  | some c =>
      simp only [getToken, hm]
      rw [← hm, jsTruthy_idem]
  | none =>
      simp only [getToken, hm]
      exact jsTruthy_idem g

theorem attachHeaders_xClientSession (sessionId : String)
    (token : Option String) (h : Headers) :
    (attachHeaders sessionId token h).xClientSession = some sessionId := by
  unfold attachHeaders
  cases jsTruthy token with
  | none => cases jsTruthy h.authorization <;> rfl
  | some t => cases jsTruthy h.authorization <;> rfl

theorem attachHeaders_contentType (sessionId : String)
    (token : Option String) (h : Headers) :
    (attachHeaders sessionId token h).contentType = h.contentType := by
  unfold attachHeaders
  cases jsTruthy token with
  | none => cases jsTruthy h.authorization <;> rfl
  | some t => cases jsTruthy h.authorization <;> rfl

theorem attachHeaders_authorization (sessionId : String)
    (token : Option String) (h : Headers) (hh : h.authorization = none) :
    (attachHeaders sessionId token h).authorization =
      Option.map (fun t => "Bearer " ++ t) (jsTruthy token) := by
  unfold attachHeaders
  rw [hh]
  cases ht : jsTruthy token with
  | none => simp [hh, jsTruthy]
  | some t => simp [jsTruthy]

theorem fetchWithRetry_err (oracle : Nat → Except NetErr ServerResponse)
    (attempt : Nat) (e : NetErr) (hor : oracle attempt = Except.error e) :
    fetchWithRetry oracle attempt = ⟨Except.error e, [], 1⟩ := by
  rw [fetchWithRetry, hor]

theorem fetchWithRetry_stop (oracle : Nat → Except NetErr ServerResponse)
    (attempt : Nat) (r : ServerResponse) (hor : oracle attempt = Except.ok r)
    (hno : ¬(r.status = 429 ∧ attempt < MAX_RETRIES)) :
    fetchWithRetry oracle attempt = ⟨Except.ok r, [], 1⟩ := by
  rw [fetchWithRetry, hor]
  simp only [dif_neg hno]

theorem fetchWithRetry_step (oracle : Nat → Except NetErr ServerResponse)
    (attempt : Nat) (r : ServerResponse) (hor : oracle attempt = Except.ok r)
    (h429 : r.status = 429) (hlt : attempt < MAX_RETRIES) :
    fetchWithRetry oracle attempt =
      ⟨(fetchWithRetry oracle (attempt + 1)).result,
       (match r.retryAfter with
        | some ra => ra * 1000
        | none => 2 ^ attempt * 500) ::
         (fetchWithRetry oracle (attempt + 1)).waits,
       (fetchWithRetry oracle (attempt + 1)).attempts + 1⟩ := by
  rw [fetchWithRetry, hor]
  simp only [dif_pos (And.intro h429 hlt)]

/-! ## Claims about the language detector -/

/-- Claim C1 (code bug): the spec promises `detect("مرحبا") = "ar"`, yet
the implementation returns `null` on that very input even though it has
5 Arabic-range characters and 0 Latin letters, because the non-global
`AR_RE` caps `arMatches` at 1; the detector written to the words of the
spec returns `"ar"` there. -/
theorem C1_detect_arabic_unreachable :
    detectClientLangFromInput "مرحبا" = none ∧
    arabicCharCount "مرحبا" = 5 ∧
    latinMatchCount "مرحبا" = 0 ∧
    detectSpecModel "مرحبا" = some "ar" := by decide

/-- Claim C8 (code bug): the spec-side iff fails on the code.  The input
below has 2 Latin letters and 5 Arabic-range characters, so per the spec
`detect` must not return `"en"` (Latin count is below the Arabic count,
and the spec detector returns `"ar"`), yet the implementation returns
`"en"` because the non-global `AR_RE` reports an Arabic count of at most
1.  The remaining listed cases of the claim do hold on the code. -/
theorem C8_detect_en_despite_arabic_majority :
    detectClientLangFromInput "abمرحبا" = some "en" ∧
    latinMatchCount "abمرحبا" = 2 ∧
    arabicCharCount "abمرحبا" = 5 ∧
    detectSpecModel "abمرحبا" = some "ar" ∧
    detectClientLangFromInput "" = none ∧
    detectClientLangFromInput "   " = none ∧
    detectClientLangFromInput "1234" = none ∧
    detectClientLangFromInput "abc" = some "en" := by decide

/-- Claim C10 (confirmed): for every input string the deliberate detector
never returns `"ar"`: the computed Arabic match count is at most 1
because `AR_RE` is non-global, so the `arMatches >= 2` test cannot hold
and every output is `null` or `"en"`. -/
theorem C10_detect_never_returns_ar (text : String) :
    arMatchCount text ≤ 1 ∧
    (detectClientLangFromInput text = none ∨
      detectClientLangFromInput text = some "en") := by
  have h1 : arMatchCount text ≤ 1 := by
    unfold arMatchCount
    split <;> omega
  refine ⟨h1, ?_⟩
  simp only [detectClientLangFromInput]
  split
  · exact Or.inl rfl
  · rw [if_neg (by omega)]
    split
    · exact Or.inr rfl
    · exact Or.inl rfl

/-! ## Claims about the session store -/

/-- Claim C4, counterexample: on a persisted value that is present but
fails to parse, `getSession` does not synthesize a fresh session; the
`JSON.parse` error propagates and the stored value is left in place. -/
theorem C4_getSession_corrupt_counterexample :
    getSession StorageVal.corrupt "sess-fresh001" "2026-02-03T04:05:06Z" =
      (StorageVal.corrupt, Except.error ()) := rfl

/-- Claim C4, amended: if no session is persisted, `getSession`
synthesizes a new session from the freshly generated id and the current
timestamp, persists it and returns it; when the persisted value is
corrupt the parse error propagates instead of a recovery; and whenever a
call returns a session, a second call without an intervening adoption
returns the very same session. -/
theorem C4_getSession_amended (store : StorageVal)
    (fresh1 now1 fresh2 now2 : String) :
    (getSession StorageVal.missing fresh1 now1 =
      (StorageVal.valid ⟨fresh1, now1⟩, Except.ok ⟨fresh1, now1⟩)) ∧
    (∀ s1, (getSession store fresh1 now1).2 = Except.ok s1 →
      (getSession (getSession store fresh1 now1).1 fresh2 now2).2 =
        Except.ok s1) := by
  refine ⟨rfl, ?_⟩
  intro s1 h
  cases store with
  | missing =>
      simp only [getSession, Except.ok.injEq] at h
      simp [getSession, h]
  | corrupt =>
      simp [getSession] at h
  | valid s =>
      simp only [getSession, Except.ok.injEq] at h
      simp [getSession, h]

/-- Witness for C4: starting from empty storage, two consecutive calls
return the same session id. -/
theorem C4_getSession_amended_witness :
    (getSession (getSession StorageVal.missing "sess-a1b2" "2026-01-01").1
        "sess-z9y8" "2026-01-02").2 =
      Except.ok ⟨"sess-a1b2", "2026-01-01"⟩ :=
  (C4_getSession_amended StorageVal.missing "sess-a1b2" "2026-01-01"
      "sess-z9y8" "2026-01-02").2 ⟨"sess-a1b2", "2026-01-01"⟩ rfl

/-! ## Claims about the retrying transport -/

/-- Claim C2 (confirmed): the transport retries only on status 429.  A
non-429 response at any attempt is returned at once with no wait and a
single fetch; a thrown transport error propagates at once with no retry;
and when every attempt yields a 429, exactly `MAX_RETRIES + 1 = 5`
requests are made and the final 429 response is returned normally. -/
theorem C2_transport_retry_policy (oracle : Nat → Except NetErr ServerResponse) :
    (∀ attempt r, oracle attempt = Except.ok r → r.status ≠ 429 →
        fetchWithRetry oracle attempt = ⟨Except.ok r, [], 1⟩) ∧
    (∀ attempt e, oracle attempt = Except.error e →
        fetchWithRetry oracle attempt = ⟨Except.error e, [], 1⟩) ∧
    ((∀ n, n ≤ MAX_RETRIES → ∃ r, oracle n = Except.ok r ∧ r.status = 429) →
        (fetchWithRetry oracle 0).attempts = 5 ∧
        (fetchWithRetry oracle 0).result = oracle 4) := by
  refine ⟨?_, ?_, ?_⟩
  · intro attempt r hor hst
    exact fetchWithRetry_stop oracle attempt r hor (fun hc => hst hc.1)
  · intro attempt e hor
    exact fetchWithRetry_err oracle attempt e hor
  · intro H
    obtain ⟨r0, h0, s0⟩ := H 0 (by norm_num [MAX_RETRIES])
    obtain ⟨r1, h1, s1⟩ := H 1 (by norm_num [MAX_RETRIES])
    obtain ⟨r2, h2, s2⟩ := H 2 (by norm_num [MAX_RETRIES])
    obtain ⟨r3, h3, s3⟩ := H 3 (by norm_num [MAX_RETRIES])
    obtain ⟨r4, h4, s4⟩ := H 4 (by norm_num [MAX_RETRIES])
    have e0 := fetchWithRetry_step oracle 0 r0 h0 s0 (by norm_num [MAX_RETRIES])
    have e1 := fetchWithRetry_step oracle 1 r1 h1 s1 (by norm_num [MAX_RETRIES])
    have e2 := fetchWithRetry_step oracle 2 r2 h2 s2 (by norm_num [MAX_RETRIES])
    have e3 := fetchWithRetry_step oracle 3 r3 h3 s3 (by norm_num [MAX_RETRIES])
    have e4 := fetchWithRetry_stop oracle 4 r4 h4 (by norm_num [MAX_RETRIES])
    rw [e0, e1, e2, e3, e4]
    simp [h4]

/-- Witness for C2: a persistent-429 network yields 5 attempts and the
final 429 as a normal result; a transport error and a 200 each settle in
one attempt. -/
theorem C2_transport_retry_policy_witness :
    ((fetchWithRetry oracle429 0).attempts = 5 ∧
      (fetchWithRetry oracle429 0).result = oracle429 4) ∧
    fetchWithRetry oracleNetFail 0 = ⟨Except.error NetErr.netFail, [], 1⟩ ∧
    fetchWithRetry oracleOk 0 = ⟨Except.ok respOk, [], 1⟩ :=
  ⟨(C2_transport_retry_policy oracle429).2.2
      (fun _ _ => ⟨resp429, rfl, rfl⟩),
   (C2_transport_retry_policy oracleNetFail).2.1 0 NetErr.netFail rfl,
   (C2_transport_retry_policy oracleOk).1 0 respOk rfl (by decide)⟩

/-- Claim C5 (confirmed): before each retry after a 429, the wait is
`Retry-After * 1000` ms when the header is present and `2 ^ attempt * 500`
ms otherwise; a retry-exhausted run with no Retry-After waits exactly
500, 1000, 2000, 4000 ms; and a `Retry-After: 2` header forces an
exactly-2000 ms first wait. -/
theorem C5_backoff_schedule (oracle : Nat → Except NetErr ServerResponse) :
    (∀ attempt r, attempt < MAX_RETRIES → oracle attempt = Except.ok r →
        r.status = 429 →
        (fetchWithRetry oracle attempt).waits =
          (match r.retryAfter with
           | some ra => ra * 1000
           | none => 2 ^ attempt * 500) ::
            (fetchWithRetry oracle (attempt + 1)).waits) ∧
    ((∀ n, n ≤ MAX_RETRIES →
        ∃ r, oracle n = Except.ok r ∧ r.status = 429 ∧ r.retryAfter = none) →
        (fetchWithRetry oracle 0).waits = [500, 1000, 2000, 4000]) ∧
    (∀ r, oracle 0 = Except.ok r → r.status = 429 → r.retryAfter = some 2 →
        ∃ ws, (fetchWithRetry oracle 0).waits = 2000 :: ws) := by
  refine ⟨?_, ?_, ?_⟩
  · intro attempt r hlt hor hst
    rw [fetchWithRetry_step oracle attempt r hor hst hlt]
  · intro H
    obtain ⟨r0, h0, s0, a0⟩ := H 0 (by norm_num [MAX_RETRIES])
    obtain ⟨r1, h1, s1, a1⟩ := H 1 (by norm_num [MAX_RETRIES])
    obtain ⟨r2, h2, s2, a2⟩ := H 2 (by norm_num [MAX_RETRIES])
    obtain ⟨r3, h3, s3, a3⟩ := H 3 (by norm_num [MAX_RETRIES])
    obtain ⟨r4, h4, s4, a4⟩ := H 4 (by norm_num [MAX_RETRIES])
    have e0 := fetchWithRetry_step oracle 0 r0 h0 s0 (by norm_num [MAX_RETRIES])
    have e1 := fetchWithRetry_step oracle 1 r1 h1 s1 (by norm_num [MAX_RETRIES])
    have e2 := fetchWithRetry_step oracle 2 r2 h2 s2 (by norm_num [MAX_RETRIES])
    have e3 := fetchWithRetry_step oracle 3 r3 h3 s3 (by norm_num [MAX_RETRIES])
    have e4 := fetchWithRetry_stop oracle 4 r4 h4 (by norm_num [MAX_RETRIES])
    rw [e0, e1, e2, e3, e4]
    simp [a0, a1, a2, a3]
  · intro r hor hst hra
    refine ⟨(fetchWithRetry oracle 1).waits, ?_⟩
    rw [fetchWithRetry_step oracle 0 r hor hst (by norm_num [MAX_RETRIES])]
    simp [hra]

/-- Witness for C5: the exponential schedule on a persistent plain 429,
and the 2000 ms wait forced by Retry-After 2. -/
theorem C5_backoff_schedule_witness :
    (fetchWithRetry oracle429 0).waits = [500, 1000, 2000, 4000] ∧
    ∃ ws, (fetchWithRetry oracleRA2 0).waits = 2000 :: ws :=
  ⟨(C5_backoff_schedule oracle429).2.1
      (fun _ _ => ⟨resp429, rfl, rfl, rfl⟩),
   (C5_backoff_schedule oracleRA2).2.2 resp429ra2 rfl rfl rfl⟩

end ChatWidget

namespace ChatWidget

/-! ## Characterizations of one sendMessageToServer call -/

theorem sendMessageToServer_ok_eq (oracle : Nat → Except NetErr ServerResponse)
    (langValue : String) (metaContent globalToken : Option String)
    (st : WidgetState) (messageText : String) (file : Option FileBlob)
    (intent : Option String) (resp : ServerResponse)
    (hIn : st.inFlight = false) (hNe : ¬(messageText = "" ∧ file = none))
    (hres : (fetchWithRetry oracle 0).result = Except.ok resp)
    (hok : resp.ok = true) :
    (sendMessageToServer oracle langValue metaContent globalToken st
        messageText file intent).1 =
      { inFlight := false
        session :=
          match jsTruthy (respData resp).session_id with
          | some sid =>
              if sid = st.session.session_id then st.session
              else ⟨sid, st.session.created_at⟩
          | none => st.session
        storage :=
          match jsTruthy (respData resp).session_id with
          | some sid =>
              if sid = st.session.session_id then st.storage
              else StorageVal.valid ⟨sid, st.session.created_at⟩
          | none => st.storage
        messages := st.messages ++
          [⟨"user", if messageText = "" then
              (match file with
               | some f => f.name
               | none => "") else messageText⟩,
           ⟨"bot", jsOrStr (respData resp).reply "No reply from server"⟩] } := by
  rw [sendMessageToServer.eq_def, if_neg (by simp [hIn]), if_neg hNe]
  rcases hsid : jsTruthy (respData resp).session_id with _ | sid
  · simp [hres, hok, hsid]
    split
    · cases file <;> rfl
    · rfl
  · by_cases heq : sid = st.session.session_id
    · simp [hres, hok, hsid, heq]
      split
      · cases file <;> rfl
      · rfl
    · simp [hres, hok, hsid, heq]
      split
      · cases file <;> rfl
      · rfl

theorem sendMessageToServer_err_eq (oracle : Nat → Except NetErr ServerResponse)
    (langValue : String) (metaContent globalToken : Option String)
    (st : WidgetState) (messageText : String) (file : Option FileBlob)
    (intent : Option String) (e : NetErr)
    (hIn : st.inFlight = false) (hNe : ¬(messageText = "" ∧ file = none))
    (hres : (fetchWithRetry oracle 0).result = Except.error e) :
    (sendMessageToServer oracle langValue metaContent globalToken st
        messageText file intent).1 =
      { inFlight := false
        session := st.session
        storage := st.storage
        messages := st.messages ++
          [⟨"user", if messageText = "" then
              (match file with
               | some f => f.name
               | none => "") else messageText⟩,
           ⟨"bot", "Network error — please try again."⟩] } := by
  rw [sendMessageToServer.eq_def, if_neg (by simp [hIn]), if_neg hNe]
  simp [hres]
  split
  · cases file <;> rfl
  · rfl

theorem sendMessageToServer_badstatus_eq
    (oracle : Nat → Except NetErr ServerResponse)
    (langValue : String) (metaContent globalToken : Option String)
    (st : WidgetState) (messageText : String) (file : Option FileBlob)
    (intent : Option String) (resp : ServerResponse)
    (hIn : st.inFlight = false) (hNe : ¬(messageText = "" ∧ file = none))
    (hres : (fetchWithRetry oracle 0).result = Except.ok resp)
    (hok : resp.ok = false) :
    (sendMessageToServer oracle langValue metaContent globalToken st
        messageText file intent).1 =
      { inFlight := false
        session := st.session
        storage := st.storage
        messages := st.messages ++
          [⟨"user", if messageText = "" then
              (match file with
               | some f => f.name
               | none => "") else messageText⟩,
           ⟨"bot", "Error: " ++ jsOrStr (respData resp).error
              (jsOrStr (some resp.statusText)
                ("HTTP " ++ toString resp.status))⟩] } := by
  rw [sendMessageToServer.eq_def, if_neg (by simp [hIn]), if_neg hNe]
  simp [hres, hok]
  split
  · cases file <;> rfl
  · rfl

theorem sendMessageToServer_calls (oracle : Nat → Except NetErr ServerResponse)
    (langValue : String) (metaContent globalToken : Option String)
    (st : WidgetState) (messageText : String) (file : Option FileBlob)
    (intent : Option String) :
    ∀ req ∈ (sendMessageToServer oracle langValue metaContent globalToken st
        messageText file intent).2,
      req = ⟨API_CHAT, "POST",
             attachHeaders st.session.session_id
               (getToken metaContent globalToken)
               (match file with
                | some _ => {}
                | none => { contentType := some "application/json" }),
             match file with
             | some f =>
                 ReqBody.multipart f st.session.session_id messageText
                   (if langValue = "" then "en" else langValue)
                   (jsTruthy intent)
             | none =>
                 ReqBody.json st.session.session_id messageText
                   (if langValue = "" then "en" else langValue)
                   (jsTruthy intent)⟩ := by
  intro req hreq
  rw [sendMessageToServer.eq_def] at hreq
  by_cases hf : st.inFlight = true
  · rw [if_pos hf] at hreq
    simp at hreq
  · rw [if_neg hf] at hreq
    by_cases hne : messageText = "" ∧ file = none
    · rw [if_pos hne] at hreq
      simp at hreq
    · rw [if_neg hne] at hreq
      rcases hres : (fetchWithRetry oracle 0).result with e | resp
      · simp [hres] at hreq
        exact hreq.2
      · rcases hok : resp.ok
        · simp [hres, hok] at hreq
          exact hreq.2
        · simp [hres, hok] at hreq
          exact hreq.2

/-! ## Evaluations of the fixtures -/

theorem fetch_oracleOk_eval :
    fetchWithRetry oracleOk 0 = ⟨Except.ok respOk, [], 1⟩ :=
  fetchWithRetry_stop oracleOk 0 respOk rfl (by decide)

theorem fetch_oracleBad_eval :
    fetchWithRetry oracleBad 0 = ⟨Except.ok respBad, [], 1⟩ :=
  fetchWithRetry_stop oracleBad 0 respBad rfl (by decide)

theorem send_json_calls_eval :
    (sendMessageToServer oracleOk "en" none none idleState "hi" none none).2 =
      [jsonReq] := by
  rw [sendMessageToServer.eq_def, if_neg (by decide), if_neg (by decide),
    fetch_oracleOk_eval]
  decide

theorem send_multipart_calls_eval :
    (sendMessageToServer oracleOk "ar" (some "tok123") none idleState ""
        (some sampleFile) (some "complaint")).2 = [multiReq] := by
  rw [sendMessageToServer.eq_def, if_neg (by decide), if_neg (by decide),
    fetch_oracleOk_eval]
  decide

theorem send_adopted_calls_eval :
    (sendMessageToServer oracleOk "en" none none adoptedState "hello" none
        none).2 = [jsonAdoptedReq] := by
  rw [sendMessageToServer.eq_def, if_neg (by decide), if_neg (by decide),
    fetch_oracleOk_eval]
  decide

/-! ## Claims about the submission controller -/

/-- Claim C3 (confirmed): when a submission is in flight, a new submit
call only appends the advisory wait notice and performs no network call
and no other state change (session, storage and the flag itself are
untouched, so the outcome of the first submission is unaffected); and
from an idle state the in-flight flag is false again after every exit
path of the call. -/
theorem C3_single_in_flight (oracle : Nat → Except NetErr ServerResponse)
    (langValue : String) (metaContent globalToken : Option String)
    (st : WidgetState) (messageText : String) (file : Option FileBlob)
    (intent : Option String) :
    (st.inFlight = true →
      sendMessageToServer oracle langValue metaContent globalToken st
          messageText file intent =
        ({ st with messages := st.messages ++
            [⟨"bot", "Please wait — processing previous message."⟩] }, [])) ∧
    (st.inFlight = false →
      (sendMessageToServer oracle langValue metaContent globalToken st
          messageText file intent).1.inFlight = false) := by
  constructor
  · intro h
    rw [sendMessageToServer.eq_def, if_pos h]
  · intro h
    rw [sendMessageToServer.eq_def, if_neg (by simp [h])]
    split
    · exact h
    · rcases hres : (fetchWithRetry oracle 0).result with e | resp
      · simp [hres]
      · rcases hok : resp.ok <;> simp [hres, hok]

/-- Witness for C3: the busy state only gains the advisory bubble with no
request issued, and an idle submission ends with the flag cleared. -/
theorem C3_single_in_flight_witness :
    (sendMessageToServer oracleOk "en" none none busyState "hi" none none =
      ({ busyState with messages := busyState.messages ++
          [⟨"bot", "Please wait — processing previous message."⟩] }, [])) ∧
    (sendMessageToServer oracleOk "en" none none idleState "hi" none
        none).1.inFlight = false :=
  ⟨(C3_single_in_flight oracleOk "en" none none busyState "hi" none none).1
      rfl,
   (C3_single_in_flight oracleOk "en" none none idleState "hi" none none).2
      rfl⟩

/-- Claim C6 (confirmed): on a success response whose truthy session id
differs from the current one, the id is replaced with the timestamp kept
and the new session is persisted at once; when the id is absent, falsy,
or equal, session and storage are untouched; and every request any call
issues carries the current session id of its state in the
X-Client-Session header, so requests after adoption carry the adopted
id. -/
theorem C6_session_adoption (oracle : Nat → Except NetErr ServerResponse)
    (langValue : String) (metaContent globalToken : Option String)
    (st : WidgetState) (messageText : String) (file : Option FileBlob)
    (intent : Option String) (resp : ServerResponse)
    (hIn : st.inFlight = false) (hNe : ¬(messageText = "" ∧ file = none))
    (hres : (fetchWithRetry oracle 0).result = Except.ok resp)
    (hok : resp.ok = true) :
    (∀ sid, jsTruthy (respData resp).session_id = some sid →
        sid ≠ st.session.session_id →
        (sendMessageToServer oracle langValue metaContent globalToken st
            messageText file intent).1.session =
          ⟨sid, st.session.created_at⟩ ∧
        (sendMessageToServer oracle langValue metaContent globalToken st
            messageText file intent).1.storage =
          StorageVal.valid ⟨sid, st.session.created_at⟩) ∧
    ((jsTruthy (respData resp).session_id = none ∨
        jsTruthy (respData resp).session_id = some st.session.session_id) →
        (sendMessageToServer oracle langValue metaContent globalToken st
            messageText file intent).1.session = st.session ∧
        (sendMessageToServer oracle langValue metaContent globalToken st
            messageText file intent).1.storage = st.storage) ∧
    (∀ oracle2 lang2 meta2 glob2 st2 mt2 f2 i2 req,
        req ∈ (sendMessageToServer oracle2 lang2 meta2 glob2 st2 mt2
            f2 i2).2 →
        req.headers.xClientSession = some st2.session.session_id) := by
  refine ⟨?_, ?_, ?_⟩
  · intro sid hsid hne2
    rw [sendMessageToServer_ok_eq oracle langValue metaContent globalToken st
      messageText file intent resp hIn hNe hres hok]
    simp [hsid, hne2]
  · intro hcase
    rw [sendMessageToServer_ok_eq oracle langValue metaContent globalToken st
      messageText file intent resp hIn hNe hres hok]
    rcases hcase with hnone | hsame
    · simp [hnone]
    · simp [hsame]
  · intro oracle2 lang2 meta2 glob2 st2 mt2 f2 i2 req hreq
    rw [sendMessageToServer_calls oracle2 lang2 meta2 glob2 st2 mt2 f2 i2
      req hreq]
    exact attachHeaders_xClientSession _ _ _

/-- Witness for C6: the response carrying srv-123 makes the idle state
adopt srv-123 with the original timestamp, persisting it, and the request
issued from the adopted state carries srv-123 in its session header. -/
theorem C6_session_adoption_witness :
    ((sendMessageToServer oracleOk "en" none none idleState "hi" none
        none).1.session = adoptedSession ∧
     (sendMessageToServer oracleOk "en" none none idleState "hi" none
        none).1.storage = StorageVal.valid adoptedSession) ∧
    jsonAdoptedReq.headers.xClientSession = some "srv-123" :=
  ⟨(C6_session_adoption oracleOk "en" none none idleState "hi" none none
      respOk rfl (by decide) (by rw [fetch_oracleOk_eval]) rfl).1
      "srv-123" rfl (by decide),
   (C6_session_adoption oracleOk "en" none none idleState "hi" none none
      respOk rfl (by decide) (by rw [fetch_oracleOk_eval]) rfl).2.2
      oracleOk "en" none none adoptedState "hello" none none jsonAdoptedReq
      (by rw [send_adopted_calls_eval]; exact List.mem_singleton.mpr rfl)⟩

/-- Claim C7 (confirmed): an unparseable body degrades to the empty data
object rather than failing the call; on a success status the rendered
bot text is the reply or the fixed placeholder when the reply is absent
or falsy; on a non-success status the rendered text is the server error
field, else the status text, else HTTP plus the code. -/
theorem C7_response_handling (oracle : Nat → Except NetErr ServerResponse)
    (langValue : String) (metaContent globalToken : Option String)
    (st : WidgetState) (messageText : String) (file : Option FileBlob)
    (intent : Option String) (resp : ServerResponse)
    (hIn : st.inFlight = false) (hNe : ¬(messageText = "" ∧ file = none))
    (hres : (fetchWithRetry oracle 0).result = Except.ok resp) :
    (resp.body = none → respData resp = ⟨none, none, none⟩) ∧
    (resp.ok = true →
        (sendMessageToServer oracle langValue metaContent globalToken st
            messageText file intent).1.messages =
          st.messages ++
            [⟨"user", if messageText = "" then
                (match file with
                 | some f => f.name
                 | none => "") else messageText⟩,
             ⟨"bot", jsOrStr (respData resp).reply "No reply from server"⟩]) ∧
    (resp.ok = false →
        (sendMessageToServer oracle langValue metaContent globalToken st
            messageText file intent).1.messages =
          st.messages ++
            [⟨"user", if messageText = "" then
                (match file with
                 | some f => f.name
                 | none => "") else messageText⟩,
             ⟨"bot", "Error: " ++ jsOrStr (respData resp).error
                (jsOrStr (some resp.statusText)
                  ("HTTP " ++ toString resp.status))⟩]) := by
  refine ⟨?_, ?_, ?_⟩
  · intro hb
    simp [respData, hb]
  · intro hok
    rw [sendMessageToServer_ok_eq oracle langValue metaContent globalToken st
      messageText file intent resp hIn hNe hres hok]
  · intro hok
    rw [sendMessageToServer_badstatus_eq oracle langValue metaContent
      globalToken st messageText file intent resp hIn hNe hres hok]

/-- Witness for C7: a success reply renders hello; a 500 with empty
status text and unparseable body renders Error: HTTP 500 via the full
fallback chain, with the body treated as empty. -/
theorem C7_response_handling_witness :
    (sendMessageToServer oracleOk "en" none none idleState "hi" none
        none).1.messages = [⟨"user", "hi"⟩, ⟨"bot", "hello"⟩] ∧
    (sendMessageToServer oracleBad "en" none none idleState "hi" none
        none).1.messages = [⟨"user", "hi"⟩, ⟨"bot", "Error: HTTP 500"⟩] ∧
    respData respBad = ⟨none, none, none⟩ :=
  ⟨(C7_response_handling oracleOk "en" none none idleState "hi" none none
      respOk rfl (by decide) (by rw [fetch_oracleOk_eval])).2.1 rfl,
   (C7_response_handling oracleBad "en" none none idleState "hi" none none
      respBad rfl (by decide) (by rw [fetch_oracleBad_eval])).2.2 rfl,
   (C7_response_handling oracleBad "en" none none idleState "hi" none none
      respBad rfl (by decide) (by rw [fetch_oracleBad_eval])).1 rfl⟩

/-- Claim C9 (confirmed): with a file the outbound body is multipart with
file, session id, message, language and the intent kept as given (when it
is not the falsy empty string), and no JSON content type; without a file
the body is the JSON object with the same fields and the JSON content
type header; in both encodings every issued request carries the session
header and, exactly when a token is available, the bearer authorization
header. -/
theorem C9_request_composition (oracle : Nat → Except NetErr ServerResponse)
    (langValue : String) (metaContent globalToken : Option String)
    (st : WidgetState) (messageText : String) (file : Option FileBlob)
    (intent : Option String) (hIntent : intent ≠ some "") :
    (∀ f, file = some f →
        ∀ req ∈ (sendMessageToServer oracle langValue metaContent globalToken
            st messageText file intent).2,
          req.body = ReqBody.multipart f st.session.session_id messageText
              (if langValue = "" then "en" else langValue) intent ∧
          req.headers.contentType = none) ∧
    (file = none →
        ∀ req ∈ (sendMessageToServer oracle langValue metaContent globalToken
            st messageText file intent).2,
          req.body = ReqBody.json st.session.session_id messageText
              (if langValue = "" then "en" else langValue) intent ∧
          req.headers.contentType = some "application/json") ∧
    (∀ req ∈ (sendMessageToServer oracle langValue metaContent globalToken
        st messageText file intent).2,
        req.url = API_CHAT ∧ req.method = "POST" ∧
        req.headers.xClientSession = some st.session.session_id ∧
        req.headers.authorization =
          Option.map (fun t => "Bearer " ++ t)
            (getToken metaContent globalToken)) := by
  have hint : jsTruthy intent = intent := jsTruthy_of_ne_empty intent hIntent
  refine ⟨?_, ?_, ?_⟩
  · intro f hf req hreq
    rw [sendMessageToServer_calls oracle langValue metaContent globalToken st
      messageText file intent req hreq]
    subst hf
    exact ⟨by simp [hint], by simp [attachHeaders_contentType]⟩
  · intro hf req hreq
    rw [sendMessageToServer_calls oracle langValue metaContent globalToken st
      messageText file intent req hreq]
    subst hf
    exact ⟨by simp [hint], by simp [attachHeaders_contentType]⟩
  · intro req hreq
    rw [sendMessageToServer_calls oracle langValue metaContent globalToken st
      messageText file intent req hreq]
    refine ⟨rfl, rfl, attachHeaders_xClientSession _ _ _, ?_⟩
    rw [attachHeaders_authorization _ _ _ (by cases file <;> rfl)]
    rw [jsTruthy_getToken]

/-- Witness for C9: the concrete multipart and JSON requests produced by
the fixtures, with identical transport headers in both encodings. -/
theorem C9_request_composition_witness :
    ((multiReq.body =
        ReqBody.multipart sampleFile "sess-abc123" "" "ar" (some "complaint") ∧
      multiReq.headers.contentType = none) ∧
     (jsonReq.body = ReqBody.json "sess-abc123" "hi" "en" none ∧
      jsonReq.headers.contentType = some "application/json")) ∧
    (multiReq.url = API_CHAT ∧ multiReq.method = "POST" ∧
     multiReq.headers.xClientSession = some "sess-abc123" ∧
     multiReq.headers.authorization =
       Option.map (fun t => "Bearer " ++ t) (getToken (some "tok123") none)) :=
  ⟨⟨(C9_request_composition oracleOk "ar" (some "tok123") none idleState ""
        (some sampleFile) (some "complaint") (by decide)).1 sampleFile rfl
        multiReq
        (by rw [send_multipart_calls_eval]; exact List.mem_singleton.mpr rfl),
    (C9_request_composition oracleOk "en" none none idleState "hi" none none
        (by decide)).2.1 rfl jsonReq
        (by rw [send_json_calls_eval]; exact List.mem_singleton.mpr rfl)⟩,
   (C9_request_composition oracleOk "ar" (some "tok123") none idleState ""
      (some sampleFile) (some "complaint") (by decide)).2.2 multiReq
      (by rw [send_multipart_calls_eval]; exact List.mem_singleton.mpr rfl)⟩

end ChatWidget
